import Mathlib

/-!
Shallow embedding of the tree-walking Lox interpreter from
TheGoldenPatrik1/403-lox-interpreter (files under src/src, plus the
chapters-11-13 snapshot of value.rs cited by the claims).

Modelling conventions:
* Rust `String` is modelled as `List Char` (`RStr`); byte slicing on the
  ASCII strings the interpreter manipulates coincides with char slicing.
* Rust `f64` is modelled as `LNum`: a finite rational (an unreduced
  `Int`/`Nat` fraction, compared by cross-multiplication) or NaN.  The
  finite arithmetic the claims exercise (integer add/sub/mul) is exact in
  f64, so fraction arithmetic is a faithful model there; division by zero
  is collapsed to NaN (no claim touches it).  IEEE `==` (NaN unequal to
  everything, including itself) is modelled by `LNum.beqIEEE`.
* `Rc<RefCell<Environment>>` and `Rc<RefCell<LoxInstance>>` are modelled as
  indices into an explicit heap (`Heap.envs`, `Heap.insts`); `Rc::ptr_eq`
  becomes index equality, and `Environment::clone` / `LoxInstance::clone`
  become copies of the cell contents (the enclosing index is shared, the
  value table is copied), exactly as `#[derive(Clone)]` produces.
* `panic!` / `expect` / `unwrap` and `crate::runtime_error` (which prints
  and then panics, see main.rs) are modelled by `RuntimeRes.panicked`
  carrying the message.
* `HashMap<String, _>` is modelled as an association list with
  insert-replaces-existing semantics; the only iteration over a map
  (`sync_closure_with_interpreter_env`) only inserts missing keys, so the
  iteration order nondeterminism of HashMap is unobservable.
-/

namespace Lox

/-- Rust `String`, modelled as a list of characters. -/
abbrev RStr := List Char

/-- `HashMap::get` on the association-list model. -/
def mapGet {κ α : Type} [BEq κ] (m : List (κ × α)) (k : κ) : Option α :=
  match m with
  | [] => none
  | (k', v) :: rest => if k' == k then some v else mapGet rest k

/-- `HashMap::contains_key`. -/
def mapContains {κ α : Type} [BEq κ] (m : List (κ × α)) (k : κ) : Bool :=
  (mapGet m k).isSome

/-- `HashMap::insert`: replaces the binding if the key is present, otherwise
appends it. -/
def mapInsert {κ α : Type} [BEq κ] (m : List (κ × α)) (k : κ) (v : α) :
    List (κ × α) :=
  match m with
  | [] => [(k, v)]
  | (k', v') :: rest =>
      if k' == k then (k', v) :: rest else (k', v') :: mapInsert rest k v

/-- An unreduced fraction: `num / den` with `den` positive.  Every
operation below keeps `den` nonzero; fractions are compared by
cross-multiplication, so reduction is never needed (and the kernel can
evaluate everything definitionally, unlike `ℚ`'s gcd-normalising ops). -/
structure LQ where
  num : Int
  den : Nat
deriving DecidableEq, Repr

/-- The fraction `i / 1`. -/
def qInt (i : Int) : LQ := ⟨i, 1⟩

def LQ.beq (a b : LQ) : Bool := a.num * (b.den : Int) == b.num * (a.den : Int)

/-- Model of an `f64` value: a finite rational (exactly representable
values only ever arise here) or NaN.  The infinities are collapsed into
NaN; no claim depends on them. -/
inductive LNum where
  | fin (q : LQ)
  | nan
deriving DecidableEq, Repr

/-- IEEE-754 `==` on the f64 model: NaN compares unequal to everything. -/
def LNum.beqIEEE : LNum → LNum → Bool
  | .fin a, .fin b => a.beq b
  | _, _ => false

def LNum.add : LNum → LNum → LNum
  | .fin a, .fin b =>
      .fin ⟨a.num * (b.den : Int) + b.num * (a.den : Int), a.den * b.den⟩
  | _, _ => .nan

def LNum.sub : LNum → LNum → LNum
  | .fin a, .fin b =>
      .fin ⟨a.num * (b.den : Int) - b.num * (a.den : Int), a.den * b.den⟩
  | _, _ => .nan

def LNum.mul : LNum → LNum → LNum
  | .fin a, .fin b => .fin ⟨a.num * b.num, a.den * b.den⟩
  | _, _ => .nan

/-- f64 division; division by zero (which gives ±∞ in IEEE) is collapsed
into NaN in this model — no claim depends on it. -/
def LNum.div : LNum → LNum → LNum
  | .fin a, .fin b =>
      if b.num = 0 then .nan
      else if 0 < b.num then .fin ⟨a.num * (b.den : Int), a.den * b.num.natAbs⟩
      else .fin ⟨-(a.num * (b.den : Int)), a.den * b.num.natAbs⟩
  | _, _ => .nan

def LNum.neg : LNum → LNum
  | .fin a => .fin ⟨-a.num, a.den⟩
  | .nan => .nan

/-- IEEE `partial_cmp`: `none` whenever NaN is involved. -/
def LNum.partialCmp : LNum → LNum → Option Ordering
  | .fin a, .fin b => some (compare (a.num * (b.den : Int)) (b.num * (a.den : Int)))
  | _, _ => none

/-! ## Tokens and AST (token.rs / expr.rs / stmt.rs)

Only the token kinds the interpreter inspects are modelled.  The source
`Expr` has no `Super` variant (src/src/expr.rs), so none appears here. -/

inductive TokenType where
  | Number | StringTok | True_ | False_ | Nil_ | Identifier | This_
  | Plus | Minus | Star | Slash
  | Greater | GreaterEqual | Less | LessEqual
  | Bang | BangEqual | EqualEqual | Or_ | And_ | EoF
deriving DecidableEq, Repr

/-- `Token { type_, lexeme, literal, line }`. -/
structure Token where
  type_ : TokenType
  lexeme : RStr
  literal : Option RStr
  line : Int
deriving DecidableEq, Repr

/-- Expression nodes (src/src/expr.rs).  As in the source, `Expr` is the
key of the resolver's `locals` map with derived structural equality. -/
inductive Expr where
  | assign (name : Token) (value : Expr)
  | binary (left : Expr) (operator : Token) (right : Expr)
  | grouping (expression : Expr)
  | literal (value : Token)
  | set (object : Expr) (name : Token) (value : Expr)
  | unary (operator : Token) (right : Expr)
  | var (name : Token)
  | logical (left : Expr) (operator : Token) (right : Expr)
  | call (callee : Expr) (paren : Token) (arguments : List Expr)
  | get (object : Expr) (name : Token)
  | this_ (keyword : Token)
deriving Repr

mutual

/-- Structural equality on expressions, mirroring the derived
`PartialEq`/`Hash` used to key the interpreter's resolution map. -/
def Expr.beq : Expr → Expr → Bool
  | .assign n v, .assign n' v' => n == n' && Expr.beq v v'
  | .binary l o r, .binary l' o' r' =>
      Expr.beq l l' && o == o' && Expr.beq r r'
  | .grouping e, .grouping e' => Expr.beq e e'
  | .literal t, .literal t' => t == t'
  | .set o n v, .set o' n' v' => Expr.beq o o' && n == n' && Expr.beq v v'
  | .unary o r, .unary o' r' => o == o' && Expr.beq r r'
  | .var n, .var n' => n == n'
  | .logical l o r, .logical l' o' r' =>
      Expr.beq l l' && o == o' && Expr.beq r r'
  | .call c p args, .call c' p' args' =>
      Expr.beq c c' && p == p' && Expr.beqList args args'
  | .get o n, .get o' n' => Expr.beq o o' && n == n'
  | .this_ k, .this_ k' => k == k'
  | _, _ => false

def Expr.beqList : List Expr → List Expr → Bool
  | [], [] => true
  | a :: as', b :: bs => Expr.beq a b && Expr.beqList as' bs
  | _, _ => false

end

instance : BEq Expr := ⟨Expr.beq⟩

/-- Statement nodes (src/src/stmt.rs). -/
inductive Stmt where
  | block (stmts : List Stmt)
  | classStmt (name : Token) (superclass : Option Expr) (methods : List Stmt)
  | expression (e : Expr)
  | function (name : Token) (params : List Token) (body : List Stmt)
  | ifStmt (condition : Expr) (thenBranch : Stmt) (elseBranch : Option Stmt)
  | print (e : Expr)
  | returnStmt (keyword : Token) (value : Option Expr)
  | varStmt (name : Token) (init : Option Expr)
  | whileStmt (condition : Expr) (body : Stmt)
deriving Repr

/-! ## Runtime values and the heap

`Rc<RefCell<_>>` cells are heap slots addressed by `Nat` indices. -/

/-- Single quote and double quote characters (used in error messages and in
string lexemes, which in this interpreter keep their surrounding quotes). -/
def sq : Char := Char.ofNat 39

def dq : Char := Char.ofNat 34

/-- `LoxFunction` (lox_function.rs): `closure` is an environment heap id. -/
structure LoxFunction where
  arity : Nat
  declaration : Stmt
  closure : Nat
  isInit : Bool
deriving Repr

/-- `LoxClass` (lox_class.rs).  Note: the struct has no superclass field;
its constructor takes only methods, declaration, closure and name. -/
structure LoxClass where
  arity : Nat
  declaration : Stmt
  closure : Nat
  methods : List (RStr × LoxFunction)
  name : RStr
deriving Repr

/-- `Box<dyn Callable>`: a user function, a class, or the native clock. -/
inductive CallableV where
  | fnC (f : LoxFunction)
  | clsC (c : LoxClass)
  | clock
deriving Repr

/-- `Value` (snapshots/chapters 11-13/value.rs), with `Instance` carrying a
heap id for its `Rc<RefCell<LoxInstance>>`. -/
inductive Value where
  | boolean (b : Bool)
  | number (n : LNum)
  | str (s : RStr)
  | callable (c : CallableV)
  | inst (i : Nat)
  | nil
deriving Repr

/-- One `Environment` cell (environment.rs): parent link plus bindings. -/
structure EnvCell where
  enclosing : Option Nat
  values : List (RStr × Option Value)
deriving Repr

/-- `LoxInstance` (lox_instance.rs).  The class is inlined: the source
stores a fresh `Rc<RefCell<LoxClass>>` per instance and never mutates it. -/
structure LoxInstance where
  klass : LoxClass
  fields : List (RStr × Value)
deriving Repr

structure Heap where
  envs : List EnvCell
  insts : List LoxInstance
deriving Repr

def Heap.envAt (h : Heap) (id : Nat) : Option EnvCell := h.envs.get? id

def Heap.allocEnv (h : Heap) (c : EnvCell) : Heap × Nat :=
  ({ h with envs := h.envs ++ [c] }, h.envs.length)

def Heap.setEnv (h : Heap) (id : Nat) (c : EnvCell) : Heap :=
  { h with envs := h.envs.set id c }

def Heap.instAt (h : Heap) (id : Nat) : Option LoxInstance := h.insts.get? id

def Heap.allocInst (h : Heap) (i : LoxInstance) : Heap × Nat :=
  ({ h with insts := h.insts ++ [i] }, h.insts.length)

def Heap.setInst (h : Heap) (id : Nat) (i : LoxInstance) : Heap :=
  { h with insts := h.insts.set id i }

/-- Outcome of running embedded code: a value, or a Rust panic.
`crate::runtime_error` (main.rs) prints the error and then panics, so every
reported runtime error surfaces as `panicked` with the error's message. -/
inductive RuntimeRes (α : Type) where
  | ok (a : α)
  | panicked (msg : RStr)
deriving Repr

def RuntimeRes.bind {α β : Type} :
    RuntimeRes α → (α → RuntimeRes β) → RuntimeRes β
  | .ok a, f => f a
  | .panicked m, _ => .panicked m

instance : Monad RuntimeRes where
  pure := RuntimeRes.ok
  bind := RuntimeRes.bind

/-! ## Environment operations (environment.rs)

The chain walks take a fuel argument; callers pass the constant `envFuel`,
which dwarfs every chain this development builds (every cell's parent was
allocated before it, so chains are shorter than the heap).  A malformed
cyclic heap, where Rust would loop forever, exhausts the fuel instead. -/

/-- Chain-walk fuel: larger than any environment chain in this file. -/
def envFuel : Nat := 1000000

/-- `Environment::get`: search the cell, then the enclosing chain.  A
binding holding `None` (a variable defined without a value) panics via
`.expect("REASON")`; a missing variable reports "Variable not found". -/
def envGet (h : Heap) : Nat → Nat → RStr → RuntimeRes Value
  | 0, _, _ => .panicked "out of fuel".data
  | fuel + 1, id, name =>
    match h.envAt id with
    | none => .panicked "dangling environment id".data
    | some cell =>
      match mapGet cell.values name with
      | some (some value) => .ok value
      | some none => .panicked "REASON".data
      | none =>
        match cell.enclosing with
        | some e => envGet h fuel e name
        | none => .panicked "Variable not found".data

/-- The loop inside `Environment::ancestor`: follow `enclosing` `d` times,
panicking (`unwrap`) if the chain is too short. -/
def ancestorLoop (h : Heap) : Nat → Nat → RuntimeRes Nat
  | 0, id => .ok id
  | d + 1, id =>
    match h.envAt id with
    | none => .panicked "dangling environment id".data
    | some cell =>
      match cell.enclosing with
      | some e => ancestorLoop h d e
      | none => .panicked "unwrap on None".data

/-- `Environment::ancestor`: the source FIRST wraps a clone of `self` in a
fresh `Rc` (`Rc::new(RefCell::new(self.clone()))`) and walks from there, so
distance 0 returns a fresh copy of the current frame, not the frame itself. -/
def ancestor (h : Heap) (id : Nat) (distance : Nat) : RuntimeRes (Heap × Nat) :=
  match h.envAt id with
  | none => .panicked "dangling environment id".data
  | some cell =>
    let alloc := h.allocEnv cell
    (ancestorLoop alloc.1 distance alloc.2).bind fun target =>
      .ok (alloc.1, target)

/-- `Environment::get_at`: `self.ancestor(distance).borrow_mut().get(name)`.
The temporary clone is dropped afterwards, so only the value is returned. -/
def getAt (h : Heap) (id : Nat) (distance : Nat) (name : RStr) :
    RuntimeRes Value :=
  (ancestor h id distance).bind fun ht =>
    envGet ht.1 envFuel ht.2 name

/-- `Environment::assign`: update the innermost frame containing `name`,
else report "Undefined variable 'name'". -/
def envAssign (h : Heap) : Nat → Nat → RStr → Value → RuntimeRes Heap
  | 0, _, _, _ => .panicked "out of fuel".data
  | fuel + 1, id, name, v =>
    match h.envAt id with
    | none => .panicked "dangling environment id".data
    | some cell =>
      if mapContains cell.values name then
        .ok (h.setEnv id { cell with values := mapInsert cell.values name (some v) })
      else
        match cell.enclosing with
        | some e => envAssign h fuel e name v
        | none =>
            .panicked ("Undefined variable ".data ++ [sq] ++ name ++ [sq])

/-- `Environment::assign_at`: `self.ancestor(distance).borrow_mut().assign(..)`.
Because `ancestor` starts from a fresh clone, distance 0 assigns into a
cell nothing references. -/
def assignAt (h : Heap) (id : Nat) (distance : Nat) (name : RStr) (v : Value) :
    RuntimeRes Heap :=
  (ancestor h id distance).bind fun ht =>
    envAssign ht.1 envFuel ht.2 name v

/-- `Environment::define`: unconditional insert into the current frame. -/
def envDefine (h : Heap) (id : Nat) (name : RStr) (v : Option Value) : Heap :=
  match h.envAt id with
  | none => h
  | some cell => h.setEnv id { cell with values := mapInsert cell.values name v }

/-! ## Callable / class / instance operations -/

/-- `LoxFunction::new` panics unless the declaration is a `Function`
statement; `arity` is the parameter count. -/
def LoxFunction.new (declaration : Stmt) (closure : Nat) (isInit : Bool) :
    RuntimeRes LoxFunction :=
  match declaration with
  | .function n params body =>
      .ok { arity := params.length
            declaration := .function n params body
            closure := closure
            isInit := isInit }
  | _ => .panicked "Expected Stmt::Function".data

/-- The loop building the parameter list inside `LoxFunction::to_string`:
a separator follows every parameter that is not (structurally) equal to the
last parameter. -/
def paramString (lastP : Token) : List Token → RStr
  | [] => []
  | p :: rest =>
      p.lexeme ++ (if p == lastP then [] else ", ".data) ++ paramString lastP rest

/-- `Callable::to_string` for `LoxFunction`: `fn name(p1, p2)`. -/
def LoxFunction.to_string (f : LoxFunction) : RuntimeRes RStr :=
  match f.declaration with
  | .function name params _body =>
      let ps := match params.getLast? with
        | none => ([] : RStr)
        | some lastP => paramString lastP params
      .ok ("fn ".data ++ name.lexeme ++ "(".data ++ ps ++ ")".data)
  | _ => .panicked "Expected Stmt::Function".data

/-- The `fmt::Display` impl for `LoxClass` (used by `ToString::to_string`
inside `Interpreter::is_equal`): prints the declaration's name token. -/
def LoxClass.display (c : LoxClass) : RStr :=
  match c.declaration with
  | .classStmt name _ _ => name.lexeme
  | _ => "LoxClass with unexpected declaration".data

/-- `LoxClass::find_method`: the class's OWN method table only — the struct
has no superclass field and nothing else is searched. -/
def LoxClass.find_method (c : LoxClass) (name : RStr) : Option LoxFunction :=
  if mapContains c.methods name then mapGet c.methods name else none

/-- `Callable::arity` dispatch: functions use their stored arity; a class
uses its `init` method's arity when present, else 0; clock is 0. -/
def callableArity : CallableV → Nat
  | .fnC f => f.arity
  | .clsC c =>
      match c.find_method "init".data with
      | some f => f.arity
      | none => 0
  | .clock => 0

/-- `LoxFunction::bind`: the instance is received BY VALUE (every caller
passes a `.clone()`), wrapped into a fresh `Rc` cell, and a fresh one-entry
environment mapping `this` to that copy becomes the new function's closure. -/
def LoxFunction.bind (f : LoxFunction) (h : Heap) (i : LoxInstance) :
    RuntimeRes (Heap × Option Value) :=
  let ai := h.allocInst i
  let env : EnvCell :=
    { enclosing := some f.closure
      values := [("this".data, some (.inst ai.2))] }
  let ae := ai.1.allocEnv env
  (LoxFunction.new f.declaration ae.2 f.isInit).bind fun nf =>
    .ok (ae.1, some (.callable (.fnC nf)))

/-- `LoxInstance::get`: a field shadows a method; a found method is bound
to `self.clone()` (a copy of the instance, not the instance cell). -/
def LoxInstance.get (h : Heap) (i : LoxInstance) (name : Token) :
    RuntimeRes (Heap × Option Value) :=
  match mapGet i.fields name.lexeme with
  | some v => .ok (h, some v)
  | none =>
    match i.klass.find_method name.lexeme with
    | some method => method.bind h i
    | none => .panicked "Undefined property.".data

/-- `LoxInstance::set`: unconditional insert; `value.expect("REASON")`
panics when the assigned expression evaluated to `None`. -/
def LoxInstance.set (i : LoxInstance) (name : Token) (v : Option Value) :
    RuntimeRes LoxInstance :=
  match v with
  | some value => .ok { i with fields := mapInsert i.fields name.lexeme value }
  | none => .panicked "REASON".data

/-! ## Value equality and ordering -/

/-- The hand-written `PartialEq for Value` (snapshots/chapters 11-13/
value.rs): callables and instances are NEVER equal — not even to
themselves. -/
def valueEq : Value → Value → Bool
  | .number a, .number b => a.beqIEEE b
  | .boolean a, .boolean b => a == b
  | .str a, .str b => a == b
  | .callable _, .callable _ => false
  | .inst _, .inst _ => false
  | .nil, .nil => true
  | _, _ => false

/-- Lexicographic comparison of Rust `String`s. -/
def rstrCompare : RStr → RStr → Ordering
  | [], [] => .eq
  | [], _ :: _ => .lt
  | _ :: _, [] => .gt
  | a :: as', b :: bs =>
      match compare a b with
      | .eq => rstrCompare as' bs
      | o => o

/-- The hand-written `PartialOrd for Value` (same snapshot). -/
def valuePartialCmp : Value → Value → Option Ordering
  | .number a, .number b => a.partialCmp b
  | .boolean a, .boolean b => some (compare a b)
  | .str a, .str b => some (rstrCompare a b)
  | .callable _, .callable _ => none
  | .inst _, .inst _ => none
  | .nil, .nil => some .eq
  | _, _ => none

/-- `PartialOrd` lifted to `Option<Value>` as Rust derives it:
`None < Some(_)`. -/
def optValuePartialCmp : Option Value → Option Value → Option Ordering
  | none, none => some .eq
  | none, some _ => some .lt
  | some _, none => some .gt
  | some a, some b => valuePartialCmp a b

def optValueGt (a b : Option Value) : Bool :=
  optValuePartialCmp a b == some .gt

def optValueGe (a b : Option Value) : Bool :=
  match optValuePartialCmp a b with
  | some .gt => true
  | some .eq => true
  | _ => false

def optValueLt (a b : Option Value) : Bool :=
  optValuePartialCmp a b == some .lt

def optValueLe (a b : Option Value) : Bool :=
  match optValuePartialCmp a b with
  | some .lt => true
  | some .eq => true
  | _ => false

/-- `Interpreter::is_truthy`. -/
def isTruthy : Option Value → Bool
  | some (.boolean b) => b
  | some .nil => false
  | some _ => true
  | none => false

/-- `Interpreter::is_equal`: two `LoxFunction`s compare by their
`to_string` output, two `LoxClass`es by their `Display` output, any other
callable pairing is `false`; non-callables fall through to `PartialEq for
Value`. -/
def isEqual : Option Value → Option Value → RuntimeRes Bool
  | none, none => .ok true
  | none, some _ => .ok false
  | some _, none => .ok false
  | some a, some b =>
    match a, b with
    | .callable ca, .callable cb =>
      match ca, cb with
      | .fnC fa, .fnC fb =>
          (fa.to_string).bind fun sa =>
            (fb.to_string).bind fun sb => .ok (sa == sb)
      | _, _ =>
        match ca, cb with
        | .clsC x, .clsC y => .ok (x.display == y.display)
        | _, _ => .ok false
    | _, _ => .ok (valueEq a b)

/-! ## Number parsing and printing -/

def digitVal (c : Char) : Option Nat :=
  if c.isDigit then some (c.toNat - 48) else none

def parseDigitsAux : List Char → Nat → Option Nat
  | [], acc => some acc
  | c :: rest, acc => (digitVal c).bind fun d => parseDigitsAux rest (10 * acc + d)

def parseDigits (cs : List Char) : Option Nat :=
  match cs with
  | [] => none
  | _ => parseDigitsAux cs 0

/-- Model of `str::parse::<f64>` on the numeral lexemes the scanner
produces (`digits` or `digits.digits`); such values are exactly
representable, so the rational value is the faithful result. -/
def parseF64 (s : RStr) : Option LNum :=
  let sp := s.span (fun c => c != '.')
  match sp.2 with
  | [] => (parseDigits sp.1).map fun n => LNum.fin (qInt (n : Int))
  | _ :: fp =>
      (parseDigits sp.1).bind fun n =>
        (parseDigits fp).map fun f =>
          LNum.fin ⟨(n * 10 ^ fp.length + f : Nat), 10 ^ fp.length⟩

def intToRStr (i : Int) : RStr :=
  if i < 0 then "-".data ++ (Nat.repr i.natAbs).data else (Nat.repr i.natAbs).data

/-- Decimal expansion of the remainder `rem/den`; every f64 fraction
terminates well within the fuel. -/
def fracToRStr (den : Nat) : Nat → Nat → RStr
  | 0, _ => []
  | fuel + 1, rem =>
      if rem = 0 then []
      else
        let r10 := rem * 10
        Char.ofNat (48 + r10 / den) :: fracToRStr den fuel (r10 % den)

/-- Model of `f64::to_string` composed with the interpreter's trailing
`".0"` trim: integral values print with no decimal point. -/
def numToRStr : LNum → RStr
  | .nan => "NaN".data
  | .fin q =>
      if q.num % (q.den : Int) = 0 then intToRStr (q.num / (q.den : Int))
      else
        let sgn : RStr := if q.num < 0 then "-".data else []
        sgn ++ (Nat.repr (q.num.natAbs / q.den)).data ++ ".".data
          ++ fracToRStr q.den 1100 (q.num.natAbs % q.den)

/-- `Interpreter::stringify`. -/
def stringify (h : Heap) : Option Value → RuntimeRes RStr
  | some v =>
    match v with
    | .number num => .ok (numToRStr num)
    | .boolean b => .ok (if b then "true".data else "false".data)
    | .str s => .ok s
    | .callable c =>
      match c with
      | .fnC f => f.to_string
      | .clsC k => .ok k.name
      | .clock => .ok "<native fn>".data
    | .inst id =>
      match h.instAt id with
      | some i =>
          match i.klass.declaration with
          | .classStmt name _ _ => .ok (name.lexeme ++ " instance".data)
          | _ => .ok "LoxInstance with unexpected class declaration".data
      | none => .panicked "dangling instance id".data
    | .nil => .ok "nil".data
  | none => .ok "nil".data

/-! ## Operand checks and the `+` arm (interpreter.rs) -/

/-- `Interpreter::check_number_operand` — reports (and, via
`crate::runtime_error`, panics with) "Operand must be a number". -/
def check_number_operand (operand : Option Value) : RuntimeRes Unit :=
  match operand with
  | some (.number _) => .ok ()
  | _ => .panicked "Operand must be a number".data

/-- `Interpreter::check_number_operands` — same message for either side. -/
def check_number_operands (left right : Option Value) : RuntimeRes Unit :=
  match left with
  | some (.number _) =>
    match right with
    | some (.number _) => .ok ()
    | _ => .panicked "Operand must be a number".data
  | _ => .panicked "Operand must be a number".data

/-- The `TokenType::Plus` arm of `visit_binary_expr`, applied to the pair
of (re-)evaluated operands.  String concatenation slices off each
operand's first and last byte (its surrounding quotes) and wraps the
result in fresh quotes; every other mixed combination reports
"Operand must be a number". -/
def visitBinaryPlus : Option Value → Option Value → RuntimeRes (Option Value)
  | some (.number l), some (.number r) => .ok (some (.number (l.add r)))
  | some (.str lstr), some (.str rstr) =>
      if lstr.length < 2 || rstr.length < 2 then
        .panicked "byte index out of bounds".data
      else
        .ok (some (.str
          ([dq] ++ (lstr.drop 1).dropLast ++ (rstr.drop 1).dropLast ++ [dq])))
  | _, _ => .panicked "Operand must be a number".data

/-! ## Interpreter state (interpreter.rs) -/

structure InterpState where
  heap : Heap
  environment : Nat
  globals : Nat
  locals : List (Expr × Nat)
  output : List RStr
deriving Repr

/-- `Interpreter::new`: environment and globals point at the same fresh
cell, which holds the native clock. -/
def InterpState.new : InterpState :=
  { heap := { envs := [{ enclosing := none
                         values := [("clock".data, some (.callable .clock))] }]
              insts := [] }
    environment := 0
    globals := 0
    locals := []
    output := [] }

/-- The ambient wall-clock reading; irrelevant to every claim, fixed at 0
in the model. -/
def clockSeconds : LQ := qInt 0

/-- `Interpreter::lookup_variable`: resolved expressions use `get_at` with
the recorded distance; unresolved ones fall back to a full chain search
from the CURRENT environment (not the globals, as the spec describes). -/
def lookupVariable (st : InterpState) (name : Token) (e : Expr) :
    RuntimeRes (Option Value) :=
  match mapGet st.locals e with
  | some d =>
      (getAt st.heap st.environment d name.lexeme).bind fun v => .ok (some v)
  | none =>
      (envGet st.heap envFuel st.environment name.lexeme).bind fun v =>
        .ok (some v)

/-- `sync_closure_with_interpreter_env` (lox_function.rs): copy every
closure binding whose key the interpreter's current environment lacks. -/
def syncClosure (h : Heap) (closureId interpEnvId : Nat) : Heap :=
  match h.envAt closureId, h.envAt interpEnvId with
  | some cEnv, some iEnv =>
      h.setEnv interpEnvId
        { iEnv with
          values := cEnv.values.foldl
            (fun acc kv =>
              if mapContains acc kv.1 then acc else mapInsert acc kv.1 kv.2)
            iEnv.values }
  | _, _ => h

/-- The parameter loop in `LoxFunction::call`:
`env.define(param, Some(arguments[i].clone().unwrap()))`. -/
def defineParams : Heap → Nat → List Token → List (Option Value) →
    RuntimeRes Heap
  | h, _, [], _ => .ok h
  | h, envId, p :: ps, a :: args =>
      match a with
      | some v => defineParams (envDefine h envId p.lexeme (some v)) envId ps args
      | none => .panicked "unwrap on None".data
  | _, _, _ :: _, [] => .panicked "index out of bounds".data

/-- The method-table loop of `visit_class_stmt`: each method's closure is a
fresh clone of the current environment frame; a method named `init` gets
`is_initializer = true`; non-Function entries are skipped. -/
def buildMethods : Heap → Nat → List Stmt → List (RStr × LoxFunction) →
    RuntimeRes (Heap × List (RStr × LoxFunction))
  | h, _, [], acc => .ok (h, acc)
  | h, envId, m :: rest, acc =>
      match m with
      | .function n params body =>
          match h.envAt envId with
          | none => .panicked "dangling environment id".data
          | some cell =>
              let ac := h.allocEnv cell
              (LoxFunction.new (.function n params body) ac.2
                  (n.lexeme == "init".data)).bind fun f =>
                buildMethods ac.1 envId rest (mapInsert acc n.lexeme f)
      | _ => buildMethods h envId rest acc

/-! ## The evaluator (interpreter.rs visitors)

Fuel bounds the recursion depth (Rust would overflow the stack or loop
forever where the fuel runs out); every theorem supplies ample fuel. -/

mutual

/-- `Interpreter::evaluate` / the `Visitor` impl for `Interpreter`. -/
def evalExpr : Nat → InterpState → Expr → RuntimeRes (InterpState × Option Value)
  | 0, _, _ => .panicked "out of fuel".data
  | fuel + 1, st, e =>
    match e with
    | .assign name value =>
        (evalExpr fuel st value).bind fun sv =>
          let st1 := sv.1
          let v := sv.2
          match mapGet st1.locals (Expr.assign name value) with
          | some d =>
            if d = 1 then
              -- special case in visit_assign_expr: assign directly through
              -- the current frame's enclosing pointer
              match v with
              | none => .ok (st1, none)
              | some vv =>
                match st1.heap.envAt st1.environment with
                | none => .panicked "dangling environment id".data
                | some cell =>
                  match cell.enclosing with
                  | none => .panicked "REASON".data
                  | some p =>
                      (envAssign st1.heap envFuel p
                          name.lexeme vv).bind fun h2 =>
                        .ok ({ st1 with heap := h2 }, some vv)
            else
              match v with
              | none => .ok (st1, none)
              | some vv =>
                  (assignAt st1.heap st1.environment d name.lexeme vv).bind
                    fun h2 => .ok ({ st1 with heap := h2 }, some vv)
          | none =>
              match v with
              | none => .ok (st1, none)
              | some vv =>
                  (envAssign st1.heap envFuel st1.globals
                      name.lexeme vv).bind fun h2 =>
                    .ok ({ st1 with heap := h2 }, some vv)
    | .literal value =>
        match value.type_ with
        | .Number =>
            match parseF64 value.lexeme with
            | some n => .ok (st, some (.number n))
            | none => .panicked "invalid float literal".data
        | .StringTok => .ok (st, some (.str value.lexeme))
        | .True_ => .ok (st, some (.boolean true))
        | .False_ => .ok (st, some (.boolean false))
        | .Nil_ => .ok (st, some .nil)
        | _ => .ok (st, none)
    | .grouping inner => evalExpr fuel st inner
    | .unary operator right =>
        (evalExpr fuel st right).bind fun sr =>
          let st1 := sr.1
          match operator.type_ with
          | .Minus =>
              match sr.2 with
              | some (.number num) =>
                  (check_number_operand (some (.number num))).bind fun _ =>
                    .ok (st1, some (.number num.neg))
              | _ => .panicked "not yet implemented".data
          | .Bang =>
              match sr.2 with
              | some .nil => .ok (st1, some (.boolean true))
              | some (.boolean b) =>
                  .ok (st1, some (.boolean (!(isTruthy (some (.boolean b))))))
              | _ => .ok (st1, some (.boolean false))
          | _ => .panicked "Not Unary expression.".data
    | .binary left operator right =>
        -- NOTE the source evaluates the RIGHT operand first
        (evalExpr fuel st right).bind fun sr =>
          (evalExpr fuel sr.1 left).bind fun sl =>
            let st2 := sl.1
            let l := sl.2
            let r := sr.2
            match operator.type_ with
            | .Greater =>
                (check_number_operands l r).bind fun _ =>
                  .ok (st2, some (.boolean (optValueGt l r)))
            | .GreaterEqual =>
                (check_number_operands l r).bind fun _ =>
                  .ok (st2, some (.boolean (optValueGe l r)))
            | .Less =>
                (check_number_operands l r).bind fun _ =>
                  .ok (st2, some (.boolean (optValueLt l r)))
            | .LessEqual =>
                (check_number_operands l r).bind fun _ =>
                  .ok (st2, some (.boolean (optValueLe l r)))
            | .BangEqual =>
                (isEqual l r).bind fun b => .ok (st2, some (.boolean (!b)))
            | .EqualEqual =>
                (isEqual l r).bind fun b => .ok (st2, some (.boolean b))
            | .Minus =>
                (check_number_operands l r).bind fun _ =>
                  match l, r with
                  | some (.number a), some (.number b) =>
                      .ok (st2, some (.number (a.sub b)))
                  | _, _ => .panicked "not yet implemented".data
            | .Slash =>
                (check_number_operands l r).bind fun _ =>
                  match l, r with
                  | some (.number a), some (.number b) =>
                      .ok (st2, some (.number (a.div b)))
                  | _, _ => .panicked "not yet implemented".data
            | .Star =>
                (check_number_operands l r).bind fun _ =>
                  match l, r with
                  | some (.number a), some (.number b) =>
                      .ok (st2, some (.number (a.mul b)))
                  | _, _ => .panicked "not yet implemented".data
            | .Plus =>
                -- the Plus arm re-evaluates BOTH operands (left first)
                (evalExpr fuel st2 left).bind fun sl2 =>
                  (evalExpr fuel sl2.1 right).bind fun sr2 =>
                    (visitBinaryPlus sl2.2 sr2.2).bind fun v =>
                      .ok (sr2.1, v)
            | _ => .ok (st2, none)
    | .var name =>
        (lookupVariable st name (Expr.var name)).bind fun v => .ok (st, v)
    | .logical left operator right =>
        (evalExpr fuel st left).bind fun sl =>
          let st1 := sl.1
          if operator.type_ = TokenType.Or_ then
            if isTruthy sl.2 then .ok (st1, sl.2) else evalExpr fuel st1 right
          else
            if !(isTruthy sl.2) then .ok (st1, sl.2) else evalExpr fuel st1 right
    | .call callee _paren arguments =>
        (evalExpr fuel st callee).bind fun sf =>
          (evalArgs fuel sf.1 arguments).bind fun sa =>
            match sf.2 with
            | some (.callable c) =>
                if sa.2.length ≠ callableArity c then
                  .panicked ("Expected ".data ++ (Nat.repr (callableArity c)).data
                    ++ " arguments but got ".data
                    ++ (Nat.repr sa.2.length).data ++ ".".data)
                else
                  callCallable fuel sa.1 c sa.2
            | _ => .panicked "Can only call functions and classes".data
    | .get object name =>
        (evalExpr fuel st object).bind fun so =>
          let st1 := so.1
          match so.2 with
          | some (.inst id) =>
              match st1.heap.instAt id with
              | some i =>
                  (LoxInstance.get st1.heap i name).bind fun hv =>
                    .ok ({ st1 with heap := hv.1 }, hv.2)
              | none => .panicked "dangling instance id".data
          | _ => .panicked "Only instances have properties.".data
    | .set object name value =>
        (evalExpr fuel st object).bind fun so =>
          let st1 := so.1
          match so.2 with
          | some (.inst id) =>
              (evalExpr fuel st1 value).bind fun sv =>
                let st2 := sv.1
                match st2.heap.instAt id with
                | some i =>
                    (i.set name sv.2).bind fun i2 =>
                      .ok ({ st2 with heap := st2.heap.setInst id i2 }, sv.2)
                | none => .panicked "dangling instance id".data
          | _ => .panicked "Operand must be a number".data
    | .this_ keyword =>
        (lookupVariable st keyword (Expr.this_ keyword)).bind fun v =>
          .ok (st, v)

/-- The argument loop of `visit_call_expr` (left to right). -/
def evalArgs : Nat → InterpState → List Expr →
    RuntimeRes (InterpState × List (Option Value))
  | 0, _, _ => .panicked "out of fuel".data
  | _fuel + 1, st, [] => .ok (st, [])
  | fuel + 1, st, a :: rest =>
      (evalExpr fuel st a).bind fun sa =>
        (evalArgs fuel sa.1 rest).bind fun sr =>
          .ok (sr.1, sa.2 :: sr.2)

/-- `Callable::call` dispatch over the three callable kinds. -/
def callCallable : Nat → InterpState → CallableV → List (Option Value) →
    RuntimeRes (InterpState × Option Value)
  | 0, _, _, _ => .panicked "out of fuel".data
  | fuel + 1, st, c, args =>
    match c with
    | .clock => .ok (st, some (.number (.fin clockSeconds)))
    | .clsC k =>
        -- LoxClass::call: fresh instance; `init` (when present) is bound to
        -- a CLONE of the instance and invoked, its result discarded; the
        -- original (unmutated) instance is returned.
        let inst0 : LoxInstance := { klass := k, fields := [] }
        let ai := st.heap.allocInst inst0
        let st1 := { st with heap := ai.1 }
        match k.find_method "init".data with
        | some initFn =>
            (initFn.bind st1.heap inst0).bind fun hv =>
              match hv.2 with
              | some (.callable bound) =>
                  (callCallable fuel { st1 with heap := hv.1 } bound args).bind
                    fun sr => .ok (sr.1, some (.inst ai.2))
              | _ => .ok ({ st1 with heap := hv.1 }, some (.inst ai.2))
        | none => .ok (st1, some (.inst ai.2))
    | .fnC f =>
        match f.declaration with
        | .function _name params body =>
            -- BUG preserved from the source: the new frame's parent is the
            -- interpreter's CURRENT environment, not the function's closure
            -- (the adjacent comment in lox_function.rs claims the latter).
            let ae := st.heap.allocEnv
              { enclosing := some st.environment, values := [] }
            (defineParams ae.1 ae.2 params args).bind fun h1 =>
              let h2 :=
                if f.closure ≠ st.environment then
                  syncClosure h1 f.closure st.environment
                else h1
              (executeFunctionBlock fuel { st with heap := h2 } body
                  ae.2).bind fun sr =>
                let st2 := sr.1
                match sr.2 with
                | some value =>
                    if f.isInit then
                      (getAt st2.heap f.closure 0 "this".data).bind fun tv =>
                        .ok (st2, some tv)
                    else .ok (st2, some value)
                | none =>
                    if f.isInit then
                      (getAt st2.heap f.closure 0 "this".data).bind fun tv =>
                        .ok (st2, some tv)
                    else .ok (st2, none)
        | _ => .panicked "Expected Stmt::Function".data

/-- The statement loop shared by `execute_block` and
`execute_function_block`: stop at the first return signal. -/
def execStmtList : Nat → InterpState → List Stmt →
    RuntimeRes (InterpState × Option Value)
  | 0, _, _ => .panicked "out of fuel".data
  | _fuel + 1, st, [] => .ok (st, none)
  | fuel + 1, st, s :: rest =>
      (execStmt fuel st s).bind fun sr =>
        match sr.2 with
        | some value => .ok (sr.1, some value)
        | none => execStmtList fuel sr.1 rest

/-- `Interpreter::execute_block`: swap in the new environment, run, and
restore the previous environment on every exit. -/
def executeBlock : Nat → InterpState → List Stmt → Nat →
    RuntimeRes (InterpState × Option Value)
  | 0, _, _, _ => .panicked "out of fuel".data
  | fuel + 1, st, stmts, envId =>
      let previous := st.environment
      (execStmtList fuel { st with environment := envId } stmts).bind fun sr =>
        .ok ({ sr.1 with environment := previous }, sr.2)

/-- `Interpreter::execute_function_block` (a near verbatim duplicate of
`execute_block` in the source). -/
def executeFunctionBlock : Nat → InterpState → List Stmt → Nat →
    RuntimeRes (InterpState × Option Value)
  | 0, _, _, _ => .panicked "out of fuel".data
  | fuel + 1, st, stmts, envId =>
      let previous := st.environment
      (execStmtList fuel { st with environment := envId } stmts).bind fun sr =>
        .ok ({ sr.1 with environment := previous }, sr.2)

/-- The `StmtVisitor` impl for `Interpreter`. -/
def execStmt : Nat → InterpState → Stmt → RuntimeRes (InterpState × Option Value)
  | 0, _, _ => .panicked "out of fuel".data
  | fuel + 1, st, s =>
    match s with
    | .block stmts =>
        let ae := st.heap.allocEnv
          { enclosing := some st.environment, values := [] }
        executeBlock fuel { st with heap := ae.1 } stmts ae.2
    | .classStmt name superclass methods =>
        match superclass with
        | some _ =>
            -- interpreter.rs passes a superclass argument to
            -- `LoxClass::new`, whose definition takes none: this path of
            -- the crate does not compile.
            .panicked "LoxClass::new: superclass argument not accepted".data
        | none =>
            let h1 := envDefine st.heap st.environment name.lexeme none
            (buildMethods h1 st.environment methods []).bind fun hm =>
              match hm.1.envAt st.environment with
              | none => .panicked "dangling environment id".data
              | some cell =>
                  let ck := hm.1.allocEnv cell
                  let klass : Value := .callable (.clsC
                    { arity := 0
                      declaration := .classStmt name none methods
                      closure := ck.2
                      methods := hm.2
                      name := name.lexeme })
                  (envAssign ck.1 envFuel st.environment
                      name.lexeme klass).bind fun h2 =>
                    .ok ({ st with heap := h2 }, none)
    | .expression e => (evalExpr fuel st e).bind fun sv => .ok (sv.1, none)
    | .function name params body =>
        -- BUG preserved from the source: the closure is a CLONE of the
        -- current frame (`Rc::new(RefCell::new(env.borrow_mut().clone()))`),
        -- not a shared reference to it.
        match st.heap.envAt st.environment with
        | none => .panicked "dangling environment id".data
        | some cell =>
            let ac := st.heap.allocEnv cell
            (LoxFunction.new (.function name params body) ac.2 false).bind
              fun f =>
                let h2 := envDefine ac.1 st.environment name.lexeme
                  (some (.callable (.fnC f)))
                .ok ({ st with heap := h2 }, none)
    | .ifStmt condition thenBranch elseBranch =>
        (evalExpr fuel st condition).bind fun sc =>
          if isTruthy sc.2 then execStmt fuel sc.1 thenBranch
          else
            match elseBranch with
            | some e => execStmt fuel sc.1 e
            | none => .ok (sc.1, none)
    | .print e =>
        (evalExpr fuel st e).bind fun sv =>
          match sv.2 with
          | some value =>
              (stringify sv.1.heap (some value)).bind fun out =>
                .ok ({ sv.1 with output := sv.1.output ++ [out] }, none)
          | none => .ok (sv.1, none)
    | .returnStmt _keyword value =>
        match value with
        | some e =>
            (evalExpr fuel st e).bind fun sv =>
              match sv.2 with
              | some v => .ok (sv.1, some v)
              | none => .ok (sv.1, none)
        | none => .ok (st, some .nil)
    | .varStmt name init =>
        match init with
        | some e =>
            (evalExpr fuel st e).bind fun sv =>
              .ok ({ sv.1 with
                      heap := envDefine sv.1.heap sv.1.environment
                        name.lexeme sv.2 }, none)
        | none =>
            .ok ({ st with
                    heap := envDefine st.heap st.environment
                      name.lexeme none }, none)
    | .whileStmt condition body =>
        whileLoop fuel st st.environment condition body

/-- `visit_while_stmt`: loop while truthy; restore the remembered
environment on exit and forward a return signal. -/
def whileLoop : Nat → InterpState → Nat → Expr → Stmt →
    RuntimeRes (InterpState × Option Value)
  | 0, _, _, _, _ => .panicked "out of fuel".data
  | fuel + 1, st, previous, condition, body =>
      (evalExpr fuel st condition).bind fun sc =>
        if isTruthy sc.2 then
          (execStmt fuel sc.1 body).bind fun sr =>
            match sr.2 with
            | some value =>
                .ok ({ sr.1 with environment := previous }, some value)
            | none => whileLoop fuel sr.1 previous condition body
        else .ok ({ sc.1 with environment := previous }, none)

end

/-- `Interpreter::execute`: `stmt.clone().expect("REASON").accept(self)`. -/
def execute (fuel : Nat) (st : InterpState) :
    Option Stmt → RuntimeRes (InterpState × Option Value)
  | some s => execStmt fuel st s
  | none => .panicked "REASON".data

/-- `Interpreter::interpret`: run the statements, stopping at a stray
return signal. -/
def interpret : Nat → InterpState → List (Option Stmt) →
    RuntimeRes (InterpState × Option Value)
  | _, st, [] => .ok (st, none)
  | fuel, st, s :: rest =>
      (execute fuel st s).bind fun sr =>
        match sr.2 with
        | some value => .ok (sr.1, some value)
        | none => interpret fuel sr.1 rest

/-! ## The resolver (src/src/resolver.rs)

This file's `Visitor` impl covers Assign/Literal/Grouping/Unary/Binary/
Call/Variable/Logical expressions and Block/Expression/Function/If/Print/
Return/Var/While statements ONLY; the trait methods for Get/Set/This and
for Class statements are not implemented, so the crate does not compile
for programs containing them — modelled as a panic on those nodes. -/

inductive FunctionType where
  | NoneF | FunctionF
deriving DecidableEq, Repr

/-- Resolver state: the interpreter's resolution map (the resolver holds
the interpreter and writes into it via `Interpreter::resolve`), the scope
stack (last = innermost), and the current function type. -/
structure ResolverState where
  locals : List (Expr × Nat)
  scopes : List (List (RStr × Bool))
  currentFunction : FunctionType
deriving Repr

def ResolverState.new : ResolverState :=
  { locals := [], scopes := [], currentFunction := .NoneF }

def beginScope (rs : ResolverState) : ResolverState :=
  { rs with scopes := rs.scopes ++ [[]] }

def endScope (rs : ResolverState) : ResolverState :=
  { rs with scopes := rs.scopes.dropLast }

/-- `Resolver::declare`: duplicate declarations in the same scope panic. -/
def Resolver.declare (rs : ResolverState) (name : Token) :
    RuntimeRes ResolverState :=
  match rs.scopes.getLast? with
  | none => .ok rs
  | some scope =>
      if mapContains scope name.lexeme then
        .panicked "Variable with this name already declared in this scope.".data
      else
        .ok { rs with
              scopes := rs.scopes.dropLast
                ++ [mapInsert scope name.lexeme false] }

def Resolver.define (rs : ResolverState) (name : Token) : ResolverState :=
  match rs.scopes.getLast? with
  | none => rs
  | some scope =>
      { rs with
        scopes := rs.scopes.dropLast ++ [mapInsert scope name.lexeme true] }

/-- `Resolver::resolve_local`: iterate the scope vector in reverse
(innermost first); EVERY scope containing the name records its ABSOLUTE
vector index (0 = outermost) — there is no early return, so the surviving
entry is the outermost containing scope's index, and no conversion to an
innermost-relative hop count ever happens. -/
def resolve_local (rs : ResolverState) (e : Expr) (name : Token) :
    ResolverState :=
  (rs.scopes.enum.reverse).foldl
    (fun acc iscope =>
      if mapContains iscope.2 name.lexeme then
        { acc with locals := mapInsert acc.locals e iscope.1 }
      else acc)
    rs

/-- The parameter loop of `Resolver::resolve_function`. -/
def declareParams : ResolverState → List Token → RuntimeRes ResolverState
  | rs, [] => .ok rs
  | rs, p :: ps =>
      (Resolver.declare rs p).bind fun rs1 =>
        declareParams (Resolver.define rs1 p) ps

mutual

def resolveExpr : Nat → ResolverState → Expr → RuntimeRes ResolverState
  | 0, _, _ => .panicked "out of fuel".data
  | fuel + 1, rs, e =>
    match e with
    | .assign name value =>
        (resolveExpr fuel rs value).bind fun rs1 =>
          .ok (resolve_local rs1 (Expr.assign name value) name)
    | .literal _ => .ok rs
    | .grouping inner => resolveExpr fuel rs inner
    | .unary _ right => resolveExpr fuel rs right
    | .binary left _ right =>
        (resolveExpr fuel rs left).bind fun rs1 => resolveExpr fuel rs1 right
    | .call callee _ arguments =>
        (resolveExpr fuel rs callee).bind fun rs1 =>
          resolveExprList fuel rs1 arguments
    | .var name =>
        if rs.scopes.isEmpty then .ok rs
        else
          match rs.scopes.getLast? with
          | none => .ok rs
          | some scope =>
            match mapGet scope name.lexeme with
            | some false =>
                .panicked "Can't read local variable in its own initializer.".data
            | _ => .ok (resolve_local rs (Expr.var name) name)
    | .logical left _ right =>
        (resolveExpr fuel rs left).bind fun rs1 => resolveExpr fuel rs1 right
    | .get _ _ => .panicked "Resolver: no visit_get_expr".data
    | .set _ _ _ => .panicked "Resolver: no visit_set_expr".data
    | .this_ _ => .panicked "Resolver: no visit_this_expr".data

def resolveExprList : Nat → ResolverState → List Expr → RuntimeRes ResolverState
  | 0, _, _ => .panicked "out of fuel".data
  | _fuel + 1, rs, [] => .ok rs
  | fuel + 1, rs, a :: rest =>
      (resolveExpr fuel rs a).bind fun rs1 => resolveExprList fuel rs1 rest

def resolveStmt : Nat → ResolverState → Stmt → RuntimeRes ResolverState
  | 0, _, _ => .panicked "out of fuel".data
  | fuel + 1, rs, s =>
    match s with
    | .block stmts =>
        (resolveStmts fuel (beginScope rs) stmts).bind fun rs2 =>
          .ok (endScope rs2)
    | .classStmt _ _ _ => .panicked "Resolver: no visit_class_stmt".data
    | .expression e => resolveExpr fuel rs e
    | .function name params body =>
        (Resolver.declare rs name).bind fun rs1 =>
          resolveFunction fuel (Resolver.define rs1 name) params body
            .FunctionF
    | .ifStmt condition thenBranch elseBranch =>
        (resolveExpr fuel rs condition).bind fun rs1 =>
          (resolveStmt fuel rs1 thenBranch).bind fun rs2 =>
            match elseBranch with
            | some e => resolveStmt fuel rs2 e
            | none => .ok rs2
    | .print e => resolveExpr fuel rs e
    | .returnStmt _ value =>
        if rs.currentFunction = FunctionType.NoneF then
          .panicked "Can't return from top-level code.".data
        else
          match value with
          | some e => resolveExpr fuel rs e
          | none => .ok rs
    | .varStmt name init =>
        (Resolver.declare rs name).bind fun rs1 =>
          (match init with
           | some e => resolveExpr fuel rs1 e
           | none => .ok rs1).bind fun rs2 =>
            .ok (Resolver.define rs2 name)
    | .whileStmt condition body =>
        (resolveExpr fuel rs condition).bind fun rs1 =>
          resolveStmt fuel rs1 body

def resolveStmts : Nat → ResolverState → List Stmt → RuntimeRes ResolverState
  | 0, _, _ => .panicked "out of fuel".data
  | _fuel + 1, rs, [] => .ok rs
  | fuel + 1, rs, s :: rest =>
      (resolveStmt fuel rs s).bind fun rs1 => resolveStmts fuel rs1 rest

/-- `Resolver::resolve_function`. -/
def resolveFunction : Nat → ResolverState → List Token → List Stmt →
    FunctionType → RuntimeRes ResolverState
  | 0, _, _, _, _ => .panicked "out of fuel".data
  | fuel + 1, rs, params, body, ftype =>
      let enclosing := rs.currentFunction
      let rs1 := beginScope { rs with currentFunction := ftype }
      (declareParams rs1 params).bind fun rs2 =>
        (resolveStmts fuel rs2 body).bind fun rs3 =>
          .ok { endScope rs3 with currentFunction := enclosing }

end

/-- `Resolver::resolve` over the parsed program (a `None` statement makes
the `?` operator end the pass early). -/
def resolveProgram : Nat → ResolverState → List (Option Stmt) →
    RuntimeRes ResolverState
  | _, rs, [] => .ok rs
  | _, rs, none :: _ => .ok rs
  | fuel, rs, some s :: rest =>
      (resolveStmt fuel rs s).bind fun rs1 => resolveProgram fuel rs1 rest

/-- `main::run` restricted to its resolve→interpret stages: the resolver
fills the interpreter's `locals` map, then the same statements are
interpreted. -/
def runProgram (fuel : Nat) (stmts : List (Option Stmt)) :
    RuntimeRes (InterpState × Option Value) :=
  (resolveProgram fuel ResolverState.new stmts).bind fun rs =>
    interpret fuel { InterpState.new with locals := rs.locals } stmts

/-- Interpret with an explicitly supplied resolution map.  Used for class
programs: the cited resolver implements no visitor for Class/Get/Set/This
nodes (that crate state does not compile), so no entries are recorded for
them and `lookup_variable` takes its fallback search path. -/
def interpretWith (fuel : Nat) (locals : List (Expr × Nat))
    (stmts : List (Option Stmt)) : RuntimeRes (InterpState × Option Value) :=
  interpret fuel { InterpState.new with locals := locals } stmts

/-! ## Concrete-program helpers and observations -/

def ident (s : String) : Token :=
  { type_ := .Identifier, lexeme := s.data, literal := none, line := 0 }

def numTok (s : String) : Token :=
  { type_ := .Number, lexeme := s.data, literal := none, line := 0 }

def strTok (s : String) : Token :=
  { type_ := .StringTok, lexeme := s.data, literal := none, line := 0 }

def opTok (t : TokenType) (s : String) : Token :=
  { type_ := t, lexeme := s.data, literal := none, line := 0 }

def numLit (s : String) : Expr := .literal (numTok s)

def varE (s : String) : Expr := .var (ident s)

/-- The value bound to `name` in the globals frame after a successful run. -/
def finalGlobal (r : RuntimeRes (InterpState × Option Value)) (name : RStr) :
    Option Value :=
  match r with
  | .ok sr =>
    match sr.1.heap.envAt sr.1.globals with
    | some c =>
      match mapGet c.values name with
      | some (some v) => some v
      | _ => none
    | none => none
  | .panicked _ => none

/-- The field table of instance cell `id` after a successful run. -/
def finalInstFields (r : RuntimeRes (InterpState × Option Value)) (id : Nat) :
    Option (List (RStr × Value)) :=
  match r with
  | .ok sr => (sr.1.heap.instAt id).map (fun i => i.fields)
  | .panicked _ => none

def panicMsg : RuntimeRes (InterpState × Option Value) → Option RStr
  | .panicked m => some m
  | .ok _ => none

/-- The closure id of a function value, when the value is one. -/
def closureOf : Option Value → Option Nat
  | some (.callable (.fnC f)) => some f.closure
  | _ => none

/-- The parent pointer of every environment cell after a successful run. -/
def finalEnvParents (r : RuntimeRes (InterpState × Option Value)) :
    List (Option Nat) :=
  match r with
  | .ok sr => sr.1.heap.envs.map (fun c => c.enclosing)
  | .panicked _ => []

/-- The depth the resolver recorded for an expression, if any. -/
def resolvedDepth (r : RuntimeRes ResolverState) (e : Expr) : Option Nat :=
  match r with
  | .ok rs => mapGet rs.locals e
  | .panicked _ => none

def isNumberV : Value → Bool
  | .number _ => true
  | _ => false

def isStrV : Value → Bool
  | .str _ => true
  | _ => false

/-! ### Concrete programs and intermediate states

The interpreter runs below are proved by evaluation.  Where a run is too
deep for a single definitional-evaluation step (the closure/bound-method
calls), the state reached just before the final call is spelled out as a
literal (`c1S2`, `c10S5`), the prefix is evaluated onto it, and the final
statement is evaluated from the literal. -/

def clockVal : Value := .callable .clock

/-- C1 / C8:
```
fun outer() { var a = 1; fun g() { return a; } a = 2; return g; }
var h = outer();
var r = h();
```
Lox semantics (and the spec) demand `r = 2`: `g`'s closure shares `outer`'s
frame, and `a = 2` updates it before `g` runs. -/
def c1GBody : List Stmt := [ .returnStmt (ident "return") (some (varE "a")) ]

def c1GDecl : Stmt := .function (ident "g") [] c1GBody

def c1Stmt1 : Stmt :=
  .function (ident "outer") []
    [ .varStmt (ident "a") (some (numLit "1"))
    , c1GDecl
    , .expression (.assign (ident "a") (numLit "2"))
    , .returnStmt (ident "return") (some (varE "g")) ]

def c1Stmt2 : Stmt :=
  .varStmt (ident "h") (some (.call (varE "outer") (opTok .EoF "rp") []))

def c1Stmt3 : Stmt :=
  .varStmt (ident "r") (some (.call (varE "h") (opTok .EoF "rp") []))

def progC1 : List (Option Stmt) := [some c1Stmt1, some c1Stmt2, some c1Stmt3]

/-- The resolution map the resolver produces for `progC1`. -/
def c1Locals : List (Expr × Nat) :=
  [ (varE "a", 0), (Expr.assign (ident "a") (numLit "2"), 0), (varE "g", 0) ]

def c1S0 : InterpState := { InterpState.new with locals := c1Locals }

def c1OuterVal : Value :=
  .callable (.fnC
    { arity := 0, declaration := c1Stmt1, closure := 1, isInit := false })

def c1GVal : Value :=
  .callable (.fnC
    { arity := 0, declaration := c1GDecl, closure := 3, isInit := false })

/-- The interpreter state after `c1Stmt1` and `c1Stmt2`: cell 1 is the
clone of the globals taken as `outer`'s closure; cell 2 is `outer`'s call
frame (parented on the CALLER environment 0); cell 3 is the clone of that
frame taken as `g`'s closure (`a = 1` frozen); cell 4 is the clone that
`assign_at(0)` created and wrote `a = 2` into — nothing references it. -/
def c1S2 : InterpState :=
  { heap :=
      { envs :=
          [ { enclosing := none,
              values := [("clock".data, some clockVal),
                         ("outer".data, some c1OuterVal),
                         ("h".data, some c1GVal)] },
            { enclosing := none, values := [("clock".data, some clockVal)] },
            { enclosing := some 0,
              values := [("a".data, some (.number (.fin (qInt 1)))),
                         ("g".data, some c1GVal)] },
            { enclosing := some 0,
              values := [("a".data, some (.number (.fin (qInt 1))))] },
            { enclosing := some 0,
              values := [("a".data, some (.number (.fin (qInt 2)))),
                         ("g".data, some c1GVal)] } ],
        insts := [] },
    environment := 0,
    globals := 0,
    locals := c1Locals,
    output := [] }

/-- C2: `{ { var a = 1; a; } }` — the variable is declared and read in the
same innermost scope, so the claimed convention records depth 0. -/
def progC2 : List (Option Stmt) :=
  [ some (.block
      [ .block
          [ .varStmt (ident "a") (some (numLit "1"))
          , .expression (varE "a") ] ]) ]

/-- C3: a two-frame chain; frame 1 (current) binds x=5, its parent frame 0
binds x=7. -/
def c3Heap : Heap :=
  { envs := [ { enclosing := none,
                values := [("x".data, some (.number (.fin (qInt 7))))] },
              { enclosing := some 0,
                values := [("x".data, some (.number (.fin (qInt 5))))] } ],
    insts := [] }

/-- C4:
```
class Foo { init(v) { this.x = v; } }
var f = Foo(1);
f.x;
```
-/
def classFooC4 : Stmt :=
  .classStmt (ident "Foo") none
    [ .function (ident "init") [ident "v"]
        [ .expression (.set (.this_ (opTok .This_ "this")) (ident "x") (varE "v")) ] ]

def progC4 : List (Option Stmt) :=
  [ some classFooC4
  , some (.varStmt (ident "f") (some (.call (varE "Foo") (opTok .EoF "rp") [numLit "1"])))
  , some (.expression (.get (varE "f") (ident "x"))) ]

/-- The first two statements of `progC4` (stopping before the failing
property read, to observe the heap). -/
def progC4pre : List (Option Stmt) := progC4.take 2

/-- C7: two structurally different function values (different bodies and
closures) that print identically as `fn f()`. -/
def c7FnA : LoxFunction :=
  { arity := 0, declaration := .function (ident "f") [] [],
    closure := 0, isInit := false }

def c7FnB : LoxFunction :=
  { arity := 0, declaration := .function (ident "f") [] [.print (numLit "1")],
    closure := 5, isInit := false }

/-- C8 order witness program:
```
var x = 1;
var d = (x = x + 1) - (x = x * 2);
```
Left-before-right, once-each semantics gives `d = -2, x = 4`. -/
def progC8order : List (Option Stmt) :=
  [ some (.varStmt (ident "x") (some (numLit "1")))
  , some (.varStmt (ident "d") (some
      (.binary
        (.assign (ident "x") (.binary (varE "x") (opTok .Plus "+") (numLit "1")))
        (opTok .Minus "-")
        (.assign (ident "x") (.binary (varE "x") (opTok .Star "*") (numLit "2")))))) ]

/-- C8 double-evaluation witness program:
```
var x = 1;
var s = (x = x + 1) + (x = x * 10);
```
Once-each semantics gives `s = 22, x = 20`. -/
def progC8twice : List (Option Stmt) :=
  [ some (.varStmt (ident "x") (some (numLit "1")))
  , some (.varStmt (ident "s") (some
      (.binary
        (.assign (ident "x") (.binary (varE "x") (opTok .Plus "+") (numLit "1")))
        (opTok .Plus "+")
        (.assign (ident "x") (.binary (varE "x") (opTok .Star "*") (numLit "10")))))) ]

/-- C9: `class C {}` with no init. -/
def progC9ok : List (Option Stmt) :=
  [ some (.classStmt (ident "C") none [])
  , some (.varStmt (ident "i") (some (.call (varE "C") (opTok .EoF "rp") []))) ]

def progC9bad : List (Option Stmt) :=
  [ some (.classStmt (ident "C") none [])
  , some (.expression (.call (varE "C") (opTok .EoF "rp") [numLit "1"])) ]

/-- A one-parameter `init` method (C9 witness). -/
def c9InitFn : LoxFunction :=
  { arity := 1, declaration := .function (ident "init") [ident "v"] [],
    closure := 0, isInit := true }

/-- A class whose `init` takes one parameter (C9 witness). -/
def c9ClassWithInit : LoxClass :=
  { arity := 0,
    declaration := .classStmt (ident "D") none [],
    closure := 0,
    methods := [("init".data, c9InitFn)],
    name := "D".data }

/-- A class with no `init` (C9 witness). -/
def c9ClassNoInit : LoxClass :=
  { arity := 0,
    declaration := .classStmt (ident "E") none [],
    closure := 0,
    methods := [],
    name := "E".data }

/-- C10:
```
class C { m(w) { var t = this.x; this.x = w; return t; } }
var c = C();
c.x = 1;
var b = c.m;     // binds: clone of c with x = 1
c.x = 2;
var r = b(9);    // reads binding-time x (1), writes 9 through this
```
-/
def c10MBody : List Stmt :=
  [ .varStmt (ident "t") (some (.get (.this_ (opTok .This_ "this")) (ident "x")))
  , .expression (.set (.this_ (opTok .This_ "this")) (ident "x") (varE "w"))
  , .returnStmt (ident "return") (some (varE "t")) ]

def c10MStmt : Stmt := .function (ident "m") [ident "w"] c10MBody

def classC10 : Stmt := .classStmt (ident "C") none [c10MStmt]

def c10Stmt2 : Stmt :=
  .varStmt (ident "c") (some (.call (varE "C") (opTok .EoF "rp") []))

def c10Stmt3 : Stmt := .expression (.set (varE "c") (ident "x") (numLit "1"))

def c10Stmt4 : Stmt := .varStmt (ident "b") (some (.get (varE "c") (ident "m")))

def c10Stmt5 : Stmt := .expression (.set (varE "c") (ident "x") (numLit "2"))

def c10Stmt6 : Stmt :=
  .varStmt (ident "r") (some (.call (varE "b") (opTok .EoF "rp") [numLit "9"]))

def progC10 : List (Option Stmt) :=
  [some classC10, some c10Stmt2, some c10Stmt3, some c10Stmt4, some c10Stmt5,
   some c10Stmt6]

/-- The method entry the class statement builds for `m` (closure = clone
cell 1 of the globals at class-execution time). -/
def c10MFn1 : LoxFunction :=
  { arity := 1, declaration := c10MStmt, closure := 1, isInit := false }

/-- The runtime class value for `classC10` (closure = clone cell 2). -/
def c10Klass : LoxClass :=
  { arity := 0, declaration := classC10, closure := 2,
    methods := [("m".data, c10MFn1)], name := "C".data }

/-- The bound method `c.m` (closure = bind cell 3, whose `this` is the
instance COPY in cell 1 of the instance heap). -/
def c10BVal : Value :=
  .callable (.fnC
    { arity := 1, declaration := c10MStmt, closure := 3, isInit := false })

/-- The interpreter state after the first five statements of `progC10`:
instance 0 is `c` (field `x = 2` after the second direct set); instance 1
is the COPY of `c` (with binding-time `x = 1`) that `bind` wrapped for the
bound method `b`; env cell 3 is the bind environment mapping `this` to
that copy. -/
def c10S5 : InterpState :=
  { heap :=
      { envs :=
          [ { enclosing := none,
              values := [("clock".data, some clockVal),
                         ("C".data, some (.callable (.clsC c10Klass))),
                         ("c".data, some (.inst 0)),
                         ("b".data, some c10BVal)] },
            { enclosing := none,
              values := [("clock".data, some clockVal), ("C".data, none)] },
            { enclosing := none,
              values := [("clock".data, some clockVal), ("C".data, none)] },
            { enclosing := some 1,
              values := [("this".data, some (.inst 1))] } ],
        insts :=
          [ { klass := c10Klass, fields := [("x".data, .number (.fin (qInt 2)))] },
            { klass := c10Klass, fields := [("x".data, .number (.fin (qInt 1)))] } ] },
    environment := 0,
    globals := 0,
    locals := [],
    output := [] }

/-- A tiny concrete heap/instance/method for the C10 witness. -/
def c10WitnessMethod : LoxFunction :=
  { arity := 1,
    declaration := .function (ident "m") [ident "w"] [],
    closure := 0, isInit := false }

def c10WitnessClass : LoxClass :=
  { arity := 0,
    declaration := .classStmt (ident "K") none [],
    closure := 0,
    methods := [("m".data, c10WitnessMethod)],
    name := "K".data }

def c10WitnessInst : LoxInstance :=
  { klass := c10WitnessClass,
    fields := [("y".data, .number (.fin (qInt 4)))] }

def c10WitnessHeap : Heap :=
  { envs := [{ enclosing := none, values := [] }],
    insts := [{ klass := c10WitnessClass, fields := [] }] }

/-- The environment cell `LoxFunction::bind` allocates: its parent is the
method's closure and it maps `this` to the given instance cell. -/
def bindEnvCell (m : LoxFunction) (thisId : Nat) : EnvCell :=
  { enclosing := some m.closure,
    values := [("this".data, some (.inst thisId))] }

/-! ## Theorems -/

/-- Splitting an `interpret` run at a list boundary. -/
theorem interpret_append (fuel : Nat) (xs ys : List (Option Stmt)) :
    ∀ st : InterpState,
    interpret fuel st (xs ++ ys) = (interpret fuel st xs).bind fun sr =>
      match sr.2 with
      | some value => .ok (sr.1, some value)
      | none => interpret fuel sr.1 ys := by
  induction xs with
  | nil =>
      intro st
      simp [interpret, RuntimeRes.bind]
  | cons s rest ih =>
      intro st
      simp only [List.cons_append, interpret]
      cases hx : execute fuel st s with
      | panicked m => simp [RuntimeRes.bind]
      | ok sr =>
          simp only [RuntimeRes.bind]
          cases hs : sr.2 with
          | some v => simp [RuntimeRes.bind]
          | none => simp [RuntimeRes.bind, ih]

/-- Evaluating `progC1` up to (but excluding) the final call `h()` lands
exactly in the literal state `c1S2`. -/
theorem c1_split :
    interpretWith 1000 c1Locals progC1 = interpret 1000 c1S2 [some c1Stmt3] := by
  have hpre : interpret 1000 c1S0 [some c1Stmt1, some c1Stmt2]
      = .ok (c1S2, none) := by rfl
  show interpret 1000 c1S0 ([some c1Stmt1, some c1Stmt2] ++ [some c1Stmt3]) = _
  rw [interpret_append, hpre]; rfl

/-- Evaluating `progC10` up to (but excluding) the final call `b(9)` lands
exactly in the literal state `c10S5`. -/
theorem c10_split :
    interpretWith 1000 [] progC10 = interpret 1000 c10S5 [some c10Stmt6] := by
  have hpre : interpret 1000 { InterpState.new with locals := [] }
      [some classC10, some c10Stmt2, some c10Stmt3, some c10Stmt4, some c10Stmt5]
      = .ok (c10S5, none) := by rfl
  show interpret 1000 { InterpState.new with locals := ([] : List (Expr × Nat)) }
    ([some classC10, some c10Stmt2, some c10Stmt3, some c10Stmt4, some c10Stmt5]
      ++ [some c10Stmt6]) = _
  rw [interpret_append, hpre]; rfl

/-- C1: the claim fails on the code (code bug).  Running `progC1` through
the resolver and interpreter: the function value `h` captured closure cell
3, yet NO environment in the final heap has cell 3 as parent —
`LoxFunction::call` parents the call frame on the interpreter's current
environment (cell 0, the globals) instead of the closure, contradicting
its own comment ("using the closure as the enclosing scope").
Consequently the assignment `a = 2` made in the defining environment after
`g` was created is NOT visible through the closure: `r` ends up `1`, where
the spec requires `2`. -/
theorem c1_call_parent_is_caller_not_closure :
    resolveProgram 1000 ResolverState.new progC1
      = .ok { locals := c1Locals, scopes := [], currentFunction := .NoneF }
    ∧ closureOf (finalGlobal (interpretWith 1000 c1Locals progC1) "h".data)
        = some 3
    ∧ finalEnvParents (interpretWith 1000 c1Locals progC1)
        = [none, none, some 0, some 0, some 0, some 0]
    ∧ finalGlobal (interpretWith 1000 c1Locals progC1) "r".data
        = some (.number (.fin (qInt 1))) := by
  refine ⟨by rfl, ?_, ?_, ?_⟩ <;> (rw [c1_split]; rfl)

/-- C2: the claim fails on the code (code bug).  In `progC2` the variable
`a` is declared and read in the innermost of two nested scopes, so the
claimed convention records depth 0; `resolve_local` instead records the
scope's absolute vector index 1 (it never subtracts from the stack size
and never stops at the first hit).  At the read, the binding sits 0 hops
out, not 1: `get_at(1)` lands in the outer block's empty frame, searches
outward, and the whole (perfectly legal) program dies with
"Variable not found". -/
theorem c2_resolver_depth_is_absolute_index :
    resolvedDepth (resolveProgram 1000 ResolverState.new progC2)
        (varE "a") = some 1
    ∧ runProgram 1000 progC2 = .panicked "Variable not found".data :=
  ⟨by rfl, by rfl⟩

/-- C3: the claim fails on the code (code bug) at distance 0.  Reads work
(`get_at` returns frame 1's `x = 5` at distance 0 and frame 0's `x = 7` at
distance 1), but `assign_at(0, x, 9)` writes into the fresh clone that
`ancestor` starts from (cell 2 of the resulting heap): frames 0 and 1 are
bit-identical to the input heap and the write is lost.  At distance 1 the
walk leaves the clone and the real frame 0 is updated. -/
theorem c3_assign_at_zero_mutates_discarded_clone :
    getAt c3Heap 1 0 "x".data = .ok (.number (.fin (qInt 5)))
    ∧ getAt c3Heap 1 1 "x".data = .ok (.number (.fin (qInt 7)))
    ∧ assignAt c3Heap 1 0 "x".data (.number (.fin (qInt 9))) = .ok
      { envs :=
          [ { enclosing := none, values := [("x".data, some (.number (.fin (qInt 7))))] },
            { enclosing := some 0, values := [("x".data, some (.number (.fin (qInt 5))))] },
            { enclosing := some 0, values := [("x".data, some (.number (.fin (qInt 9))))] } ],
        insts := [] }
    ∧ assignAt c3Heap 1 1 "x".data (.number (.fin (qInt 9))) = .ok
      { envs :=
          [ { enclosing := none, values := [("x".data, some (.number (.fin (qInt 9))))] },
            { enclosing := some 0, values := [("x".data, some (.number (.fin (qInt 5))))] },
            { enclosing := some 0, values := [("x".data, some (.number (.fin (qInt 5))))] } ],
        insts := [] } :=
  ⟨by rfl, by rfl, by rfl, by rfl⟩

/-- C4: the claim fails on the code (code bug).  `LoxClass::call` binds
`init` to a CLONE of the new instance (`instance.borrow_mut().clone()`),
so `init`'s `this.x = v` lands in clone cell 1 while the returned instance
(cell 0) keeps an empty field table; the subsequent `f.x` read dies with
"Undefined property." although the constructor just assigned the field. -/
theorem c4_init_runs_on_clone_of_instance :
    interpretWith 1000 [] progC4 = .panicked "Undefined property.".data
    ∧ finalGlobal (interpretWith 1000 [] progC4pre) "f".data = some (.inst 0)
    ∧ finalInstFields (interpretWith 1000 [] progC4pre) 0 = some []
    ∧ finalInstFields (interpretWith 1000 [] progC4pre) 1
        = some [("x".data, .number (.fin (qInt 1)))] :=
  ⟨by rfl, by rfl, by rfl, by rfl⟩

/-- C5: the claim fails on the code (code bug).  `LoxClass::find_method`
is exactly a lookup in the class's OWN method table: the `LoxClass` struct
has no superclass field at all (its 4-parameter constructor accepts none,
although interpreter.rs passes one), so no superclass chain is ever
searched and a method declared only on an ancestor is never found. -/
theorem c5_find_method_is_own_table_lookup :
    ∀ (c : LoxClass) (name : RStr), c.find_method name = mapGet c.methods name := by
  intro c name
  unfold LoxClass.find_method mapContains
  cases h : mapGet c.methods name <;> simp [h]

/-- C6 counterexample: a String+Number operand pair does NOT fail with the
OperandsMustBeTwoNumbersOrTwoStrings error; the code reports (and panics
with) the OperandMustBeNumber message instead. -/
theorem c6_plus_mixed_error_counterexample :
    visitBinaryPlus (some (.str ([dq] ++ "a".data ++ [dq])))
        (some (.number (.fin (qInt 1))))
      = .panicked "Operand must be a number".data
    ∧ "Operand must be a number".data
        ≠ "Operands must be two numbers or two strings.".data :=
  ⟨by rfl, by decide⟩

/-- C6 (amended): Number+Number adds; String+String concatenates the
contents between the operands' surrounding quotes (string values carry
their quotes in this interpreter); every other combination fails with the
OperandMustBeNumber error ("Operand must be a number"), not the
OperandsMustBeTwoNumbersOrTwoStrings error the claim names. -/
theorem c6_plus_characterization :
    (∀ a b : LNum, visitBinaryPlus (some (.number a)) (some (.number b))
        = .ok (some (.number (a.add b))))
    ∧ (∀ a b : RStr,
        visitBinaryPlus (some (.str (dq :: a ++ [dq]))) (some (.str (dq :: b ++ [dq])))
          = .ok (some (.str (dq :: (a ++ b) ++ [dq]))))
    ∧ (∀ v w : Value, isNumberV v = false ∨ isNumberV w = false →
        isStrV v = false ∨ isStrV w = false →
        visitBinaryPlus (some v) (some w)
          = .panicked "Operand must be a number".data) := by
  refine ⟨fun a b => rfl, ?_, ?_⟩
  · intro a b
    have hlen : ¬ ((dq :: a ++ [dq]).length < 2 || (dq :: b ++ [dq]).length < 2) = true := by
      simp [List.length_append]
    simp only [visitBinaryPlus, hlen, if_false, Bool.false_eq_true, ite_false]
    have hmid : ∀ s : RStr, ((dq :: s ++ [dq]).drop 1).dropLast = s := by
      intro s
      show (s ++ [dq]).dropLast = s
      exact List.dropLast_concat
    rw [hmid a, hmid b]
    simp
  · intro v w h1 h2
    rcases v <;> rcases w <;> simp_all [isNumberV, isStrV, visitBinaryPlus]

/-- Witness for the amended C6: the three arms at concrete inputs. -/
theorem c6_plus_characterization_witness :
    visitBinaryPlus (some (.number (.fin (qInt 2)))) (some (.number (.fin (qInt 3))))
      = .ok (some (.number ((LNum.fin (qInt 2)).add (.fin (qInt 3)))))
    ∧ visitBinaryPlus (some (.str (dq :: "a".data ++ [dq])))
        (some (.str (dq :: "b".data ++ [dq])))
      = .ok (some (.str (dq :: ("a".data ++ "b".data) ++ [dq])))
    ∧ visitBinaryPlus (some (.boolean true)) (some .nil)
      = .panicked "Operand must be a number".data :=
  ⟨c6_plus_characterization.1 (.fin (qInt 2)) (.fin (qInt 3)),
   c6_plus_characterization.2.1 ("a".data) ("b".data),
   c6_plus_characterization.2.2 (.boolean true) .nil (Or.inl (by rfl))
     (Or.inl (by rfl))⟩

/-- C7 counterexample: equality is NOT by identity.  An instance value is
not even equal to itself, and two structurally different function values
(different bodies and different closures) compare EQUAL because
`is_equal` compares their `to_string` output. -/
theorem c7_identity_equality_counterexample :
    isEqual (some (.inst 0)) (some (.inst 0)) = .ok false
    ∧ isEqual (some (.callable (.fnC c7FnA))) (some (.callable (.fnC c7FnB)))
        = .ok true
    ∧ c7FnA.declaration ≠ c7FnB.declaration
    ∧ c7FnA.closure ≠ c7FnB.closure :=
  ⟨by rfl, by rfl, by simp [c7FnA, c7FnB], by decide⟩

/-- C7 (amended): equality is total; `nil == nil` only among nil pairs;
Numbers follow IEEE (NaN is unequal even to NaN); Booleans and Strings
compare by value; cross-variant pairs are unequal; but callables and
instances do NOT compare by identity: instances are NEVER equal (not even
to themselves), two functions are equal exactly when their printed
signature (name + parameter list) coincides, and two classes are equal
exactly when their displayed names coincide. -/
theorem c7_equality_characterization :
    isEqual none none = .ok true
    ∧ isEqual (some .nil) (some .nil) = .ok true
    ∧ (∀ a b : LNum, isEqual (some (.number a)) (some (.number b))
        = .ok (a.beqIEEE b))
    ∧ isEqual (some (.number .nan)) (some (.number .nan)) = .ok false
    ∧ (∀ a b : Bool, isEqual (some (.boolean a)) (some (.boolean b))
        = .ok (a == b))
    ∧ (∀ s t : RStr, isEqual (some (.str s)) (some (.str t)) = .ok (s == t))
    ∧ (∀ a : LNum, isEqual (some .nil) (some (.number a)) = .ok false)
    ∧ (∀ (s : RStr) (a : LNum), isEqual (some (.str s)) (some (.number a))
        = .ok false)
    ∧ (∀ i j : Nat, isEqual (some (.inst i)) (some (.inst j)) = .ok false)
    ∧ (∀ (nm : Token) (ps : List Token) (b₁ b₂ : List Stmt) (c₁ c₂ : Nat)
        (i₁ i₂ : Bool),
        isEqual (some (.callable (.fnC ⟨ps.length, .function nm ps b₁, c₁, i₁⟩)))
            (some (.callable (.fnC ⟨ps.length, .function nm ps b₂, c₂, i₂⟩)))
          = .ok true)
    ∧ (∀ x y : LoxClass,
        isEqual (some (.callable (.clsC x))) (some (.callable (.clsC y)))
          = .ok (x.display == y.display)) := by
  refine ⟨rfl, rfl, fun a b => rfl, by rfl, fun a b => rfl, fun s t => rfl,
    fun a => rfl, fun s a => rfl, fun i j => rfl, ?_, fun x y => rfl⟩
  intro nm ps b₁ b₂ c₁ c₂ i₁ i₂
  simp [isEqual, LoxFunction.to_string, RuntimeRes.bind]

/-- C8 counterexample: with observable side effects in the operands, the
code's results are consistent only with RIGHT-before-left evaluation, and
with `+` evaluating each operand twice.  `progC8order` yields `d = 1,
x = 3` where left-first/once-each semantics demands `d = -2, x = 4`;
`progC8twice` yields `s = 132, x = 120` where once-each semantics demands
`s = 22, x = 20`. -/
theorem c8_left_to_right_once_counterexample :
    finalGlobal (runProgram 1000 progC8order) "d".data
        = some (.number (.fin (qInt 1)))
    ∧ finalGlobal (runProgram 1000 progC8order) "x".data
        = some (.number (.fin (qInt 3)))
    ∧ finalGlobal (runProgram 1000 progC8twice) "s".data
        = some (.number (.fin (qInt 132)))
    ∧ finalGlobal (runProgram 1000 progC8twice) "x".data
        = some (.number (.fin (qInt 120))) :=
  ⟨by rfl, by rfl, by rfl, by rfl⟩

/-- C8 (amended): for every binary expression the RIGHT operand is
evaluated before the left (the state threads right-then-left); non-`+`
operators evaluate each operand exactly once, while the `+` arm evaluates
BOTH operands a second time (left, then right) and combines the
second-round values. -/
theorem c8_right_first_and_plus_reevaluates :
    (∀ (fuel : Nat) (st st1 st2 : InterpState) (l r : Expr) (a b : LQ),
      evalExpr fuel st r = .ok (st1, some (.number (.fin b))) →
      evalExpr fuel st1 l = .ok (st2, some (.number (.fin a))) →
      evalExpr (fuel + 1) st (.binary l (opTok .Minus "-") r)
        = .ok (st2, some (.number ((LNum.fin a).sub (.fin b)))))
    ∧ (∀ (fuel : Nat) (st st1 st2 st3 st4 : InterpState) (l r : Expr)
        (v1 w1 v2 w2 : Option Value),
      evalExpr fuel st r = .ok (st1, w1) →
      evalExpr fuel st1 l = .ok (st2, v1) →
      evalExpr fuel st2 l = .ok (st3, v2) →
      evalExpr fuel st3 r = .ok (st4, w2) →
      evalExpr (fuel + 1) st (.binary l (opTok .Plus "+") r)
        = (visitBinaryPlus v2 w2).bind fun v => .ok (st4, v)) := by
  constructor
  · intro fuel st st1 st2 l r a b hr hl
    simp only [evalExpr, opTok, hr, RuntimeRes.bind, hl, check_number_operands]
  · intro fuel st st1 st2 st3 st4 l r v1 w1 v2 w2 h1 h2 h3 h4
    simp only [evalExpr, opTok, h1, RuntimeRes.bind, h2, h3, h4]

/-- Witness for the amended C8 at concrete operands. -/
theorem c8_right_first_and_plus_reevaluates_witness :
    evalExpr 2 InterpState.new (.binary (numLit "5") (opTok .Minus "-") (numLit "2"))
      = .ok (InterpState.new, some (.number ((LNum.fin (qInt 5)).sub (.fin (qInt 2)))))
    ∧ evalExpr 2 InterpState.new (.binary (numLit "5") (opTok .Plus "+") (numLit "2"))
      = (visitBinaryPlus (some (.number (.fin (qInt 5))))
          (some (.number (.fin (qInt 2))))).bind
          fun v => .ok (InterpState.new, v) :=
  ⟨c8_right_first_and_plus_reevaluates.1 1 InterpState.new InterpState.new
      InterpState.new (numLit "5") (numLit "2") (qInt 5) (qInt 2) (by rfl) (by rfl),
   c8_right_first_and_plus_reevaluates.2 1 InterpState.new InterpState.new
      InterpState.new InterpState.new InterpState.new (numLit "5") (numLit "2")
      (some (.number (.fin (qInt 5)))) (some (.number (.fin (qInt 2))))
      (some (.number (.fin (qInt 5)))) (some (.number (.fin (qInt 2))))
      (by rfl) (by rfl) (by rfl) (by rfl)⟩

/-- C9 (confirmed): a class's arity is its own `init` method's arity when
one exists and 0 otherwise; `LoxFunction::new` makes a method's arity its
parameter count; a no-init class called with `()` returns an instance and
called with one argument panics with the arity-mismatch error reporting
expected 0. -/
theorem c9_class_arity_follows_init :
    (∀ (c : LoxClass) (f : LoxFunction),
        c.find_method "init".data = some f → callableArity (.clsC c) = f.arity)
    ∧ (∀ c : LoxClass,
        c.find_method "init".data = none → callableArity (.clsC c) = 0)
    ∧ (∀ (n : Token) (params : List Token) (body : List Stmt) (cl : Nat)
        (ii : Bool),
        LoxFunction.new (.function n params body) cl ii
          = .ok { arity := params.length, declaration := .function n params body,
                  closure := cl, isInit := ii })
    ∧ finalGlobal (interpretWith 1000 [] progC9ok) "i".data = some (.inst 0)
    ∧ interpretWith 1000 [] progC9bad
        = .panicked "Expected 0 arguments but got 1.".data := by
  refine ⟨?_, ?_, fun n params body cl ii => rfl, by rfl, by rfl⟩
  · intro c f h; simp [callableArity, h]
  · intro c h; simp [callableArity, h]

/-- Witness for C9's conditional parts at concrete classes. -/
theorem c9_class_arity_follows_init_witness :
    callableArity (.clsC c9ClassWithInit) = c9InitFn.arity
    ∧ callableArity (.clsC c9ClassNoInit) = 0 :=
  ⟨c9_class_arity_follows_init.1 c9ClassWithInit c9InitFn (by rfl),
   c9_class_arity_follows_init.2.1 c9ClassNoInit (by rfl)⟩

/-- C10 (confirmed): a property `Get` that resolves to a method binds it
to a COPY of the instance: the fresh instance cell appended to the heap
holds a snapshot of the fields at binding time, the bound function's
closure maps `this` to that fresh cell, and every pre-existing heap cell
is left untouched (the new heap is the old one plus appended cells).
Concretely, in `progC10` the bound method's `this.x = 9` lands in copy
cell 1, the original instance keeps the `x = 2` written directly through
`c`, and the bound call still READS the binding-time value `x = 1`. -/
theorem c10_bound_method_closes_over_instance_copy :
    (∀ (h : Heap) (i : LoxInstance) (name : Token) (m : LoxFunction)
        (nm : Token) (ps : List Token) (bd : List Stmt),
      mapGet i.fields name.lexeme = none →
      i.klass.find_method name.lexeme = some m →
      m.declaration = .function nm ps bd →
      LoxInstance.get h i name = .ok
        ({ envs := h.envs ++ [bindEnvCell m h.insts.length],
           insts := h.insts ++ [i] },
         some (.callable (.fnC
           { arity := ps.length, declaration := .function nm ps bd,
             closure := h.envs.length, isInit := m.isInit }))))
    ∧ finalGlobal (interpretWith 1000 [] progC10) "r".data
        = some (.number (.fin (qInt 1)))
    ∧ finalInstFields (interpretWith 1000 [] progC10) 0
        = some [("x".data, .number (.fin (qInt 2)))]
    ∧ finalInstFields (interpretWith 1000 [] progC10) 1
        = some [("x".data, .number (.fin (qInt 9)))] := by
  refine ⟨?_, ?_, ?_, ?_⟩
  · intro h i name m nm ps bd h1 h2 h3
    simp only [LoxInstance.get, h1, h2, LoxFunction.bind, h3, LoxFunction.new,
      Heap.allocInst, Heap.allocEnv, RuntimeRes.bind, bindEnvCell]
  all_goals (rw [c10_split]; rfl)

/-- Witness for C10's general part at a concrete heap, instance and
method. -/
theorem c10_bound_method_closes_over_instance_copy_witness :
    LoxInstance.get c10WitnessHeap c10WitnessInst (ident "m") = .ok
      ({ envs := c10WitnessHeap.envs
           ++ [bindEnvCell c10WitnessMethod c10WitnessHeap.insts.length],
         insts := c10WitnessHeap.insts ++ [c10WitnessInst] },
       some (.callable (.fnC
         { arity := [ident "w"].length,
           declaration := .function (ident "m") [ident "w"] [],
           closure := c10WitnessHeap.envs.length,
           isInit := c10WitnessMethod.isInit }))) :=
  c10_bound_method_closes_over_instance_copy.1 c10WitnessHeap c10WitnessInst
    (ident "m") c10WitnessMethod (ident "m") [ident "w"] [] (by rfl) (by rfl)
    (by rfl)

end Lox
